import Mathlib

/-!
Shallow embedding of the metrics-computation engine in src/analysis.py
(class Analyser).  External collaborators — the NLTK sentence and word
tokenizers, the syllable heuristic sylco from helpers/syllables_count.py,
and the document source supplying the raw text — are modelled as function
parameters.  Python float arithmetic is modelled exactly over ℚ, and a
Python ZeroDivisionError aborting analyse is modelled by analyse returning
none.  The mutable instance field personal_pronouns of the Python object is
threaded explicitly as a ℕ state value.
-/

/-- Predicate for the ASCII whitespace characters matched by the Python
regex class backslash-s: space, tab, newline, carriage return, vertical tab
and form feed. -/
def pyIsSpace (c : Char) : Bool :=
  c = ' ' || c = '\t' || c = '\n' || c = '\r' || c = '\x0b' || c = '\x0c'

/-- Characters kept by the regex substitution in Analyser.clean, which
removes every character that is neither an ASCII letter nor whitespace. -/
def keepAlphaSpace (c : Char) : Bool :=
  c.isAlpha || pyIsSpace c

/-- Result of the regex substitution removing every character that is not an
ASCII letter or whitespace (line 175 of src/analysis.py). -/
def removeNonAlpha (s : String) : String :=
  ⟨s.data.filter keepAlphaSpace⟩

/-- Python str.strip: drop leading and trailing whitespace. -/
def pyStrip (s : String) : String :=
  ⟨((s.data.dropWhile pyIsSpace).reverse.dropWhile pyIsSpace).reverse⟩

/-- Python str.lower on the ASCII tokens produced by the cleaning step,
written over the character list so that it reduces in the kernel. -/
def pyLower (s : String) : String :=
  ⟨s.data.map Char.toLower⟩

/-- Modelled from the spec: the constant PERSONAL_PRONOUNS is imported from
constants.py, which is not among the sources.  Section 4.1 of the spec gives
the case-sensitive forms I, we, my, ours, us, explicitly excluding the
uppercase acronym US. -/
def PERSONAL_PRONOUNS : List String :=
  ["I", "we", "my", "ours", "us"]

/-- Lexicon state of the Analyser class: the three immutable word sets taken
by the constructor.  The mutable counters of the Python object are threaded
explicitly through the functions below instead of living in the structure. -/
structure Analyser where
  positive_words : Finset String
  negative_words : Finset String
  stopwords : Finset String

/-- Inner helper of Analyser.clean: strip non-alphabetic characters and
surrounding whitespace, bump the personal-pronoun counter on a case-sensitive
match before lowercasing, and return the lowercased token. -/
def clean_and_filter (pp : ℕ) (text : String) : ℕ × String :=
  let cleaned_text := pyStrip (removeNonAlpha text)
  let pp := if cleaned_text ∈ PERSONAL_PRONOUNS then pp + 1 else pp
  (pp, pyLower cleaned_text)

/-- Single step of the list comprehension in Analyser.clean, threading the
personal-pronoun counter in evaluation order. -/
def cleanStep (acc : ℕ × List String) (word : String) : ℕ × List String :=
  let r := clean_and_filter acc.1 word
  (r.1, acc.2 ++ [r.2])

/-- Analyser.clean: apply clean_and_filter to every raw token in order, then
drop the tokens that cleaned to the empty string. -/
def clean (pp : ℕ) (words : List String) : ℕ × List String :=
  let r := words.foldl cleanStep (pp, [])
  (r.1, r.2.filter (fun word => word ≠ ""))

/-- Analyser.positive_score: the size of the intersection of the positive
lexicon set with the given word list, as computed by the Python expression
len(self.positive_words.intersection(words)). -/
def positive_score (A : Analyser) (words : List String) : ℕ :=
  (A.positive_words.filter (fun w => w ∈ words)).card

/-- Analyser.negative_score, analogous to positive_score. -/
def negative_score (A : Analyser) (words : List String) : ℕ :=
  (A.negative_words.filter (fun w => w ∈ words)).card

/-- Analyser.polarity_score with the literal 0.000001 guard. -/
def polarity_score (pos neg : ℕ) : ℚ :=
  ((pos : ℚ) - (neg : ℚ)) / (((pos : ℚ) + (neg : ℚ)) + 0.000001)

/-- Analyser.subjectivity_score with the literal 0.000001 guard. -/
def subjectivity_score (pos neg num_words : ℕ) : ℚ :=
  ((pos : ℚ) + (neg : ℚ)) / ((num_words : ℚ) + 0.000001)

/-- Analyser.average_sentence_length: len(words) / len(sentences).  The
Python division raises ZeroDivisionError on an empty sentence list; that
exception is modelled as none. -/
def average_sentence_length (words sentences : List String) : Option ℚ :=
  if sentences.length = 0 then none
  else some ((words.length : ℚ) / (sentences.length : ℚ))

/-- Analyser.syllable_count: delegate to the external sylco heuristic on a
non-empty word, return 0 on the empty word. -/
def syllable_count (syl : String → ℕ) (word : String) : ℕ :=
  if word ≠ "" then syl word else 0

/-- Analyser.complex_words: the sublist of words whose syllable count
exceeds 2; its length is the complex_words_count the engine records. -/
def complex_words (syl : String → ℕ) (words : List String) : List String :=
  words.filter (fun word => syllable_count syl word > 2)

/-- Analyser.average_word_length: mean character length over the word list,
0 on an empty list. -/
def average_word_length (words : List String) : ℚ :=
  if words ≠ [] then ((words.map String.length).sum : ℚ) / (words.length : ℚ)
  else 0

/-- Analyser.clean_stop_words: remove every stopword from the list. -/
def clean_stop_words (A : Analyser) (words : List String) : List String :=
  words.filter (fun word => word ∉ A.stopwords)

/-- One row of output.csv, in the column order written by analyse.  Numeric
fields are Option values; none models the NaN sentinel of the empty-document
row. -/
structure MetricsRecord where
  url_id : String
  url : String
  positive_score : Option ℕ
  negative_score : Option ℕ
  subjectivity_score : Option ℚ
  polarity_score : Option ℚ
  avg_sentence_length : Option ℚ
  percentage_of_complex_words : Option ℚ
  fog_index : Option ℚ
  avg_number_of_words_per_sentence : Option ℚ
  complex_word_count : Option ℕ
  word_count : Option ℕ
  syllable_per_word : Option ℚ
  personal_pronouns : Option ℕ
  avg_word_length : Option ℚ
deriving DecidableEq

/-- Row written for an empty document: identifier and locator preserved and
all thirteen numeric fields set to the NaN sentinel. -/
def undefinedRecord (url_id url : String) : MetricsRecord :=
  ⟨url_id, url, none, none, none, none, none, none, none, none, none, none,
   none, none, none⟩

/-- Analyser.analyse.  The document text (read by the source from the
extracted-data file), the NLTK tokenizers and the sylco heuristic are
parameters; pp is the personal_pronouns field of the engine instance on
entry and the returned ℕ its value after the call.  A ZeroDivisionError is
modelled by a none result. -/
def analyse (A : Analyser) (pp : ℕ) (url_id url text : String)
    (sent_tokenize word_tokenize : String → List String) (syl : String → ℕ) :
    Option (MetricsRecord × ℕ) :=
  if text = "" then
    some (undefinedRecord url_id url, pp)
  else
    let sentences := sent_tokenize text
    let cleaned := clean pp (word_tokenize text)
    let words := cleaned.2
    let number_of_words := words.length
    let number_of_sentences := sentences.length
    let pos := positive_score A words
    let neg := negative_score A words
    let pol := polarity_score pos neg
    let subj := subjectivity_score pos neg words.length
    match average_sentence_length words sentences with
    | none => none
    | some asl =>
      let cw := complex_words syl words
      if number_of_words = 0 then none
      else
        let pcw : ℚ := (cw.length : ℚ) / (number_of_words : ℚ)
        let fog : ℚ := 0.4 * (asl + pcw)
        let awps : ℚ := (number_of_words : ℚ) / (number_of_sentences : ℚ)
        let filtered := clean_stop_words A words
        let spw : ℚ :=
          if filtered ≠ [] then
            ((filtered.map (syllable_count syl)).sum : ℚ) / (filtered.length : ℚ)
          else 0
        some (⟨url_id, url, some pos, some neg, some subj, some pol, some asl,
               some pcw, some fog, some awps, some cw.length,
               some filtered.length, some spw, some cleaned.1,
               some (average_word_length filtered)⟩,
              cleaned.1)

/-- Unfolding lemma for analyse on the non-empty, non-crashing path: when the
text is non-empty, the tokenizer finds at least one sentence and at least one
raw token survives cleaning, analyse returns the fully computed record and
the updated pronoun counter. -/
theorem analyse_eq (A : Analyser) (pp : ℕ) (url_id url text : String)
    (st wt : String → List String) (syl : String → ℕ)
    (ht : text ≠ "") (hs : (st text).length ≠ 0)
    (hn : (clean pp (wt text)).2.length ≠ 0) :
    analyse A pp url_id url text st wt syl =
      some (⟨url_id, url,
        some (positive_score A (clean pp (wt text)).2),
        some (negative_score A (clean pp (wt text)).2),
        some (subjectivity_score (positive_score A (clean pp (wt text)).2)
          (negative_score A (clean pp (wt text)).2) (clean pp (wt text)).2.length),
        some (polarity_score (positive_score A (clean pp (wt text)).2)
          (negative_score A (clean pp (wt text)).2)),
        some (((clean pp (wt text)).2.length : ℚ) / ((st text).length : ℚ)),
        some (((complex_words syl (clean pp (wt text)).2).length : ℚ) /
          ((clean pp (wt text)).2.length : ℚ)),
        some (0.4 * ((((clean pp (wt text)).2.length : ℚ) / ((st text).length : ℚ)) +
          ((complex_words syl (clean pp (wt text)).2).length : ℚ) /
            ((clean pp (wt text)).2.length : ℚ))),
        some (((clean pp (wt text)).2.length : ℚ) / ((st text).length : ℚ)),
        some (complex_words syl (clean pp (wt text)).2).length,
        some (clean_stop_words A (clean pp (wt text)).2).length,
        some (if clean_stop_words A (clean pp (wt text)).2 ≠ [] then
            (((clean_stop_words A (clean pp (wt text)).2).map
              (syllable_count syl)).sum : ℚ) /
              ((clean_stop_words A (clean pp (wt text)).2).length : ℚ)
          else 0),
        some (clean pp (wt text)).1,
        some (average_word_length (clean_stop_words A (clean pp (wt text)).2))⟩,
      (clean pp (wt text)).1) := by
  simp [analyse, average_sentence_length, ht, hs, hn]

/-- Claim C1: on an empty document text, analyse returns the undefined
record — identifier and source locator preserved and all thirteen numeric
fields set to the NaN sentinel — for every lexicon triple, every tokenizer
pair and every syllable heuristic, so neither the tokenizers nor the
lexicons influence this path. -/
theorem empty_text_yields_undefined_record (A : Analyser) (pp : ℕ)
    (url_id url : String) (st wt : String → List String) (syl : String → ℕ) :
    analyse A pp url_id url "" st wt syl = some (undefinedRecord url_id url, pp) ∧
    (undefinedRecord url_id url).url_id = url_id ∧
    (undefinedRecord url_id url).url = url ∧
    (undefinedRecord url_id url).positive_score = none ∧
    (undefinedRecord url_id url).negative_score = none ∧
    (undefinedRecord url_id url).subjectivity_score = none ∧
    (undefinedRecord url_id url).polarity_score = none ∧
    (undefinedRecord url_id url).avg_sentence_length = none ∧
    (undefinedRecord url_id url).percentage_of_complex_words = none ∧
    (undefinedRecord url_id url).fog_index = none ∧
    (undefinedRecord url_id url).avg_number_of_words_per_sentence = none ∧
    (undefinedRecord url_id url).complex_word_count = none ∧
    (undefinedRecord url_id url).word_count = none ∧
    (undefinedRecord url_id url).syllable_per_word = none ∧
    (undefinedRecord url_id url).personal_pronouns = none ∧
    (undefinedRecord url_id url).avg_word_length = none :=
  ⟨rfl, rfl, rfl, rfl, rfl, rfl, rfl, rfl, rfl, rfl, rfl, rfl, rfl, rfl, rfl, rfl⟩

/-- Claim C2 (code bug): the personal-pronoun counter is never reset by
analyse, so it leaks across documents.  Analysing the one-word document I
from a fresh counter reports 1, but analysing the very same text again with
the counter state left by the first call reports 2. -/
theorem personal_pronoun_counter_accumulates_across_calls :
    (analyse ⟨∅, ∅, ∅⟩ 0 "1" "u" "I" (fun _ => ["I"]) (fun _ => ["I"])
        (fun _ => 1)).map (fun r => (r.1.personal_pronouns, r.2)) =
      some (some 1, 1) ∧
    (analyse ⟨∅, ∅, ∅⟩ 1 "2" "u" "I" (fun _ => ["I"]) (fun _ => ["I"])
        (fun _ => 1)).map (fun r => (r.1.personal_pronouns, r.2)) =
      some (some 2, 2) := by
  decide

/-- Claim C3 (code bug): on non-empty text whose sentence tokenization is
empty, analyse hits the unguarded division len(words) / len(sentences) and
raises ZeroDivisionError, modelled as a none result instead of a record. -/
theorem zero_sentences_division_crash (A : Analyser) (pp : ℕ)
    (url_id url text : String) (st wt : String → List String)
    (syl : String → ℕ) (ht : text ≠ "") (hs : st text = []) :
    analyse A pp url_id url text st wt syl = none := by
  simp [analyse, average_sentence_length, ht, hs]

/-- Witness for claim C3 at a concrete input: the one-space document with a
tokenizer that finds no sentence. -/
theorem zero_sentences_division_crash_witness :
    (" " ≠ "") ∧
    analyse ⟨∅, ∅, ∅⟩ 0 "1" "u" " " (fun _ => []) (fun _ => [" "])
      (fun _ => 1) = none :=
  ⟨by decide,
   zero_sentences_division_crash ⟨∅, ∅, ∅⟩ 0 "1" "u" " " (fun _ => [])
     (fun _ => [" "]) (fun _ => 1) (by decide) rfl⟩

/-- Claim C4 (code bug): on non-empty text with at least one sentence where
every raw token cleans to the empty string, the percentage-of-complex-words
division complex_words_count / number_of_words has denominator zero and is
unguarded, so analyse raises ZeroDivisionError, modelled as none. -/
theorem zero_words_percentage_crash (A : Analyser) (pp : ℕ)
    (url_id url text : String) (st wt : String → List String)
    (syl : String → ℕ) (ht : text ≠ "") (hs : (st text).length ≠ 0)
    (hw : (clean pp (wt text)).2 = []) :
    analyse A pp url_id url text st wt syl = none := by
  simp [analyse, average_sentence_length, ht, hs, hw]

/-- Witness for claim C4 at a concrete input: the document 123. tokenizes
into one sentence and the raw tokens 123 and the full stop, both of which
clean to the empty string. -/
theorem zero_words_percentage_crash_witness :
    ("123." ≠ "") ∧ ((fun _ : String => ["123."]) "123.").length ≠ 0 ∧
    analyse ⟨∅, ∅, ∅⟩ 0 "1" "u" "123." (fun _ => ["123."])
      (fun _ => ["123", "."]) (fun _ => 1) = none :=
  ⟨by decide, by decide,
   zero_words_percentage_crash ⟨∅, ∅, ∅⟩ 0 "1" "u" "123." (fun _ => ["123."])
     (fun _ => ["123", "."]) (fun _ => 1) (by decide) (by decide) (by decide)⟩

/-- Claim C5: positive_score is the cardinality of the intersection of the
word list, viewed as a set, with the positive lexicon, negative_score the
analogue for the negative lexicon, and appending a duplicate of a token
already present changes neither score. -/
theorem scores_count_distinct_lexicon_hits (A : Analyser) (ws : List String) :
    positive_score A ws = (A.positive_words ∩ ws.toFinset).card ∧
    negative_score A ws = (A.negative_words ∩ ws.toFinset).card ∧
    ∀ t ∈ ws, positive_score A (ws ++ [t]) = positive_score A ws ∧
      negative_score A (ws ++ [t]) = negative_score A ws := by
  have key : ∀ P : Finset String,
      P.filter (fun w => w ∈ ws) = P ∩ ws.toFinset := by
    intro P
    ext x
    simp [Finset.mem_filter, Finset.mem_inter, List.mem_toFinset]
  refine ⟨by simp only [positive_score, key],
    by simp only [negative_score, key], ?_⟩
  intro t htw
  have hfil : ∀ P : Finset String,
      P.filter (fun w => w ∈ ws ++ [t]) = P.filter (fun w => w ∈ ws) := by
    intro P
    apply Finset.filter_congr
    intro x _
    simp only [List.mem_append, List.mem_singleton]
    constructor
    · rintro (h | rfl)
      · exact h
      · exact htw
    · exact Or.inl
  exact ⟨by simp only [positive_score, hfil],
    by simp only [negative_score, hfil]⟩

/-- Witness for claim C5: the token a occurs in the list and duplicating it
changes neither score. -/
theorem scores_count_distinct_lexicon_hits_witness :
    ("a" ∈ ["a", "b"]) ∧
    (positive_score ⟨{"a"}, {"b"}, ∅⟩ (["a", "b"] ++ ["a"]) =
        positive_score ⟨{"a"}, {"b"}, ∅⟩ ["a", "b"] ∧
      negative_score ⟨{"a"}, {"b"}, ∅⟩ (["a", "b"] ++ ["a"]) =
        negative_score ⟨{"a"}, {"b"}, ∅⟩ ["a", "b"]) :=
  ⟨by decide,
   (scores_count_distinct_lexicon_hits ⟨{"a"}, {"b"}, ∅⟩ ["a", "b"]).2.2 "a"
     (by decide)⟩

/-- Claim C6 counterexample: with overlapping lexicons the subjectivity
score escapes the unit interval.  With positive and negative lexicons both
equal to the singleton good and word list consisting of the single word
good, word_count_raw is 1 but the subjectivity score is 2 / (1 + 0.000001),
which is greater than 1. -/
theorem subjectivity_exceeds_one_on_overlapping_lexicons :
    0 < (["good"] : List String).length ∧
    1 < subjectivity_score (positive_score ⟨{"good"}, {"good"}, ∅⟩ ["good"])
      (negative_score ⟨{"good"}, {"good"}, ∅⟩ ["good"])
      (["good"] : List String).length := by
  refine ⟨by decide, ?_⟩
  have hp : positive_score ⟨{"good"}, {"good"}, ∅⟩ ["good"] = 1 := by decide
  have hq : negative_score ⟨{"good"}, {"good"}, ∅⟩ ["good"] = 1 := by decide
  rw [hp, hq]
  norm_num [subjectivity_score]

/-- Claim C6 as amended: when the positive and negative lexicons are
disjoint, the subjectivity score of any word list with positive length lies
in the closed unit interval. -/
theorem subjectivity_score_in_unit_interval (A : Analyser) (ws : List String)
    (h : 0 < ws.length) (hd : Disjoint A.positive_words A.negative_words) :
    0 ≤ subjectivity_score (positive_score A ws) (negative_score A ws)
        ws.length ∧
      subjectivity_score (positive_score A ws) (negative_score A ws)
        ws.length ≤ 1 := by
  have key : positive_score A ws + negative_score A ws ≤ ws.length := by
    have hdisj : Disjoint (A.positive_words.filter (fun w => w ∈ ws))
        (A.negative_words.filter (fun w => w ∈ ws)) :=
      hd.mono (Finset.filter_subset _ _) (Finset.filter_subset _ _)
    have hsub : A.positive_words.filter (fun w => w ∈ ws) ∪
        A.negative_words.filter (fun w => w ∈ ws) ⊆ ws.toFinset := by
      intro x hx
      rcases Finset.mem_union.1 hx with hx | hx <;>
        exact List.mem_toFinset.2 (Finset.mem_filter.1 hx).2
    calc positive_score A ws + negative_score A ws =
        (A.positive_words.filter (fun w => w ∈ ws) ∪
          A.negative_words.filter (fun w => w ∈ ws)).card :=
          (Finset.card_union_of_disjoint hdisj).symm
      _ ≤ ws.toFinset.card := Finset.card_le_card hsub
      _ ≤ ws.length := ws.toFinset_card_le
  have hkey : ((positive_score A ws : ℚ) + (negative_score A ws : ℚ)) ≤
      (ws.length : ℚ) := by exact_mod_cast key
  have hden : (0 : ℚ) < (ws.length : ℚ) + 0.000001 := by positivity
  unfold subjectivity_score
  constructor
  · positivity
  · rw [div_le_one hden]
    nlinarith [show (0 : ℚ) < 0.000001 by norm_num]

/-- Witness for the amended claim C6: one word, disjoint lexicons. -/
theorem subjectivity_score_in_unit_interval_witness :
    0 < (["a"] : List String).length ∧
    (0 ≤ subjectivity_score (positive_score ⟨{"a"}, ∅, ∅⟩ ["a"])
        (negative_score ⟨{"a"}, ∅, ∅⟩ ["a"]) (["a"] : List String).length ∧
      subjectivity_score (positive_score ⟨{"a"}, ∅, ∅⟩ ["a"])
        (negative_score ⟨{"a"}, ∅, ∅⟩ ["a"]) (["a"] : List String).length ≤ 1) :=
  ⟨by decide,
   subjectivity_score_in_unit_interval ⟨{"a"}, ∅, ∅⟩ ["a"] (by decide)
     (Finset.disjoint_empty_right _)⟩

/-- Claim C7: for all non-negative integer positive and negative scores, the
polarity score lies in the closed interval from minus one to one. -/
theorem polarity_score_bounded (pos neg : ℕ) :
    -1 ≤ polarity_score pos neg ∧ polarity_score pos neg ≤ 1 := by
  have hx : (0 : ℚ) ≤ (pos : ℚ) := Nat.cast_nonneg pos
  have hy : (0 : ℚ) ≤ (neg : ℚ) := Nat.cast_nonneg neg
  have hden : (0 : ℚ) < ((pos : ℚ) + (neg : ℚ)) + 0.000001 := by positivity
  unfold polarity_score
  constructor
  · rw [le_div_iff₀ hden]
    nlinarith [show (0 : ℚ) < 0.000001 by norm_num]
  · rw [div_le_one hden]
    nlinarith [show (0 : ℚ) < 0.000001 by norm_num]

/-- Claim C8: on the non-empty path the average-sentence-length field and
the average-words-per-sentence field of the record carry the same value,
both equal to the raw normalized word count divided by the sentence count. -/
theorem avg_sentence_length_equals_avg_words_per_sentence (A : Analyser)
    (pp : ℕ) (url_id url text : String) (st wt : String → List String)
    (syl : String → ℕ) (ht : text ≠ "") (hs : (st text).length ≠ 0)
    (hn : (clean pp (wt text)).2.length ≠ 0) :
    (analyse A pp url_id url text st wt syl).map
        (fun r => (r.1.avg_sentence_length,
          r.1.avg_number_of_words_per_sentence)) =
      some (some (((clean pp (wt text)).2.length : ℚ) / ((st text).length : ℚ)),
        some (((clean pp (wt text)).2.length : ℚ) / ((st text).length : ℚ))) := by
  rw [analyse_eq A pp url_id url text st wt syl ht hs hn]
  rfl

/-- Witness for claim C8 at a concrete document with one sentence and one
surviving word. -/
theorem avg_sentence_length_equals_avg_words_per_sentence_witness :
    ("a." ≠ "") ∧ ((fun _ : String => ["a."]) "a.").length ≠ 0 ∧
    (clean 0 ((fun _ : String => ["a"]) "a.")).2.length ≠ 0 ∧
    (analyse ⟨∅, ∅, ∅⟩ 0 "1" "u" "a." (fun _ => ["a."]) (fun _ => ["a"])
        (fun _ => 1)).map
        (fun r => (r.1.avg_sentence_length,
          r.1.avg_number_of_words_per_sentence)) =
      some (some (((clean 0 ((fun _ : String => ["a"]) "a.")).2.length : ℚ) /
          (((fun _ : String => ["a."]) "a.").length : ℚ)),
        some (((clean 0 ((fun _ : String => ["a"]) "a.")).2.length : ℚ) /
          (((fun _ : String => ["a."]) "a.").length : ℚ))) :=
  ⟨by decide, by decide, by decide,
   avg_sentence_length_equals_avg_words_per_sentence ⟨∅, ∅, ∅⟩ 0 "1" "u" "a."
     (fun _ => ["a."]) (fun _ => ["a"]) (fun _ => 1) (by decide) (by decide)
     (by decide)⟩

/-- Claim C9: on the non-empty path the complex word count is the number of
tokens of the pre-stopword-removal normalized list whose syllable count
exceeds 2, the percentage of complex words divides that count by the
pre-stopword-removal word count, and the syllables-per-word and average
word length fields are computed over the post-stopword-removal filtered
list. -/
theorem complex_metrics_use_correct_word_lists (A : Analyser) (pp : ℕ)
    (url_id url text : String) (st wt : String → List String)
    (syl : String → ℕ) (ht : text ≠ "") (hs : (st text).length ≠ 0)
    (hn : (clean pp (wt text)).2.length ≠ 0) :
    (analyse A pp url_id url text st wt syl).map
        (fun r => (r.1.complex_word_count, r.1.percentage_of_complex_words,
          r.1.syllable_per_word, r.1.avg_word_length)) =
      some (some ((clean pp (wt text)).2.filter
          (fun w => syllable_count syl w > 2)).length,
        some ((((clean pp (wt text)).2.filter
            (fun w => syllable_count syl w > 2)).length : ℚ) /
          ((clean pp (wt text)).2.length : ℚ)),
        some (if clean_stop_words A (clean pp (wt text)).2 ≠ [] then
            (((clean_stop_words A (clean pp (wt text)).2).map
              (syllable_count syl)).sum : ℚ) /
              ((clean_stop_words A (clean pp (wt text)).2).length : ℚ)
          else 0),
        some (average_word_length (clean_stop_words A (clean pp (wt text)).2))) := by
  rw [analyse_eq A pp url_id url text st wt syl ht hs hn]
  rfl

/-- Witness for claim C9 at a concrete document of one sentence and one
three-syllable word. -/
theorem complex_metrics_use_correct_word_lists_witness :
    ("hi." ≠ "") ∧ ((fun _ : String => ["hi."]) "hi.").length ≠ 0 ∧
    (clean 0 ((fun _ : String => ["hi"]) "hi.")).2.length ≠ 0 ∧
    (analyse ⟨∅, ∅, ∅⟩ 0 "1" "u" "hi." (fun _ => ["hi."]) (fun _ => ["hi"])
        (fun _ => 3)).map
        (fun r => (r.1.complex_word_count, r.1.percentage_of_complex_words,
          r.1.syllable_per_word, r.1.avg_word_length)) =
      some (some ((clean 0 ((fun _ : String => ["hi"]) "hi.")).2.filter
          (fun w => syllable_count (fun _ => 3) w > 2)).length,
        some ((((clean 0 ((fun _ : String => ["hi"]) "hi.")).2.filter
            (fun w => syllable_count (fun _ => 3) w > 2)).length : ℚ) /
          ((clean 0 ((fun _ : String => ["hi"]) "hi.")).2.length : ℚ)),
        some (if clean_stop_words ⟨∅, ∅, ∅⟩
              (clean 0 ((fun _ : String => ["hi"]) "hi.")).2 ≠ [] then
            (((clean_stop_words ⟨∅, ∅, ∅⟩
                (clean 0 ((fun _ : String => ["hi"]) "hi.")).2).map
              (syllable_count (fun _ => 3))).sum : ℚ) /
              ((clean_stop_words ⟨∅, ∅, ∅⟩
                (clean 0 ((fun _ : String => ["hi"]) "hi.")).2).length : ℚ)
          else 0),
        some (average_word_length (clean_stop_words ⟨∅, ∅, ∅⟩
          (clean 0 ((fun _ : String => ["hi"]) "hi.")).2))) :=
  ⟨by decide, by decide, by decide,
   complex_metrics_use_correct_word_lists ⟨∅, ∅, ∅⟩ 0 "1" "u" "hi."
     (fun _ => ["hi."]) (fun _ => ["hi"]) (fun _ => 3) (by decide) (by decide)
     (by decide)⟩

/-- Claim C10: appending a token to the word list never decreases either
sentiment score. -/
theorem sentiment_scores_monotone_under_append (A : Analyser)
    (ws : List String) (t : String) :
    positive_score A ws ≤ positive_score A (ws ++ [t]) ∧
    negative_score A ws ≤ negative_score A (ws ++ [t]) := by
  constructor
  · unfold positive_score
    apply Finset.card_le_card
    intro x hx
    simp only [Finset.mem_filter, List.mem_append] at hx ⊢
    exact ⟨hx.1, Or.inl hx.2⟩
  · unfold negative_score
    apply Finset.card_le_card
    intro x hx
    simp only [Finset.mem_filter, List.mem_append] at hx ⊢
    exact ⟨hx.1, Or.inl hx.2⟩
